import Mathlib

/-!
Verification of the training orchestration pipeline of
`self_driving/ml_training/train.py` (the only source file of the repository).

The file `train.py` defines two functions:

* `train(mode, records, height, width, channels, architecture, activations,
  batch_size, epochs, num_steps, save_step, learning_rate, optimizer,
  verbose, name, move)` — clears any existing `checkpoints/` directory,
  constructs `Config`, `DataHolder`, `DFN`, `Trainer`, prints the mode and the
  config status, runs `trainer.fit`, optionally plots a confusion matrix and
  optionally moves the checkpoint directory to the parent directory.
* `main()` — parses CLI arguments, derives the channel count from the mode,
  builds the three record-file names, resolves activation and optimizer names
  through dictionaries, and calls `train`.

We embed both as pure Lean functions.  Side effects (filesystem operations,
printing, component construction, fitting) are recorded as an ordered trace of
`Event`s, so that ordering and presence/absence claims become statements about
lists.  `Config` and `DFN` live in files that are not part of the sources
(`Config.py`, `DFN.py`); their failure behaviour is modelled from the spec and
marked as such in the doc comments.
-/

namespace TrainPy

/-- The activation functions reachable through `activations_dict` in
`main` (`tf.nn.relu`, `tf.nn.sigmoid`, `tf.nn.tanh`). -/
inductive Activation
  | relu
  | sigmoid
  | tanh
  deriving DecidableEq

/-- The optimizer classes reachable through `optimizer_dict` in `main`. -/
inductive Optimizer
  | GradientDescent
  | Adadelta
  | Adagrad
  | Adam
  | Ftrl
  | ProximalGradientDescent
  | ProximalAdagrad
  | RMSProp
  deriving DecidableEq

/-- Observable actions of one invocation of `train`, in program order:
deleting the stale `checkpoints/` directory (lines 85-86), constructing the
four components (lines 88-105), the two prints (lines 106-107), the call to
`trainer.fit` (line 108), the confusion-matrix plot (lines 109-114), the
checkpoint relocation (lines 115-117), and an abort with a configuration
error. -/
inductive Event
  | removeCheckpoints
  | configConstructed
  | dataHolderConstructed (records : List String)
  | networkConstructed
  | trainerConstructed
  | printMode (mode : String)
  | printStatus
  | fit (verbose : Bool)
  | plotConfusion (file : String) (classes : List String)
  | moveCheckpoints (dst : String)
  | configError
  deriving DecidableEq

/-- Modelled from the spec: `Config` (§3, §4.1) is a frozen record of the
hyperparameters passed by `train` at lines 88-98.  `Config.py` is not among
the sources; the field list follows the keyword arguments of the call site and
the spec's data model. -/
structure Config where
  height : Nat
  width : Nat
  channels : Nat
  architecture : List Nat
  activations : Option (List Activation)
  batch_size : Nat
  epochs : Nat
  num_steps : Nat
  save_step : Nat
  learning_rate : Rat
  optimizer : Optimizer
  deriving DecidableEq

/-- Modelled from the spec: `Config` construction (§4.1) "Fails (construction
error) if any integer field is non-positive or `architecture` is empty"; the
learning rate is likewise required positive (§3).  No other validation is
attributed to `Config` by the spec — in particular, no check of
`architecture`'s last entry and no channel/mode check. -/
def mkConfig (height width channels : Nat) (architecture : List Nat)
    (activations : Option (List Activation))
    (batch_size epochs num_steps save_step : Nat)
    (learning_rate : Rat) (optimizer : Optimizer) : Option Config :=
  if 0 < height ∧ 0 < width ∧ 0 < channels ∧ architecture ≠ [] ∧
      0 < batch_size ∧ 0 < epochs ∧ 0 < num_steps ∧ 0 < save_step ∧
      0 < learning_rate then
    some ⟨height, width, channels, architecture, activations, batch_size,
      epochs, num_steps, save_step, learning_rate, optimizer⟩
  else
    none

/-- Modelled from the spec: `DFN` construction (§4.3) "Fails (construction
error) if `len(activations) != len(architecture) - 1` when activations is
explicitly provided".  `DFN.py` is not among the sources. -/
def dfnAccepts (cfg : Config) : Bool :=
  match cfg.activations with
  | none => true
  | some l => decide (l.length = cfg.architecture.length - 1)

/-- The parameters of `train` (lines 25-40 of `train.py`), in source order.
`activations` and `optimizer` arrive already resolved to functions by `main`,
hence the enumerated types. -/
structure TrainArgs where
  mode : String
  records : List String
  height : Nat
  width : Nat
  channels : Nat
  architecture : List Nat
  activations : Option (List Activation)
  batch_size : Nat
  epochs : Nat
  num_steps : Nat
  save_step : Nat
  learning_rate : Rat
  optimizer : Optimizer
  verbose : Bool
  name : String
  move : Bool

/-- The `Config(...)` call of `train` at lines 88-98, forwarding each
parameter by keyword. -/
def mkConfigFrom (a : TrainArgs) : Option Config :=
  mkConfig a.height a.width a.channels a.architecture a.activations
    a.batch_size a.epochs a.num_steps a.save_step a.learning_rate a.optimizer

/-- The body of `train` after the checkpoint-directory cleanup: Config
construction (lines 88-98), DataHolder (100-101), DFN (104) — which may fail
on an activations-length mismatch — Trainer (105), the two prints (106-107),
`trainer.fit` (108), the verbose-only confusion-matrix plot of
`name + ".png"` with classes `["left", "right", "up"]` (109-114), and the
move-only relocation of `checkpoints` to `os.path.join(parentdir,
"checkpoints")` (115-117), modelled as `parentdir ++ "/checkpoints"`.
A construction error aborts the run at that point. -/
def trainBody (parentdir : String) (a : TrainArgs) : List Event :=
  match mkConfigFrom a with
  | none => [Event.configError]
  | some cfg =>
    let t₁ : List Event :=
      [Event.configConstructed, Event.dataHolderConstructed a.records]
    if dfnAccepts cfg then
      let t₂ : List Event := t₁ ++
        [Event.networkConstructed, Event.trainerConstructed,
          Event.printMode a.mode, Event.printStatus, Event.fit a.verbose]
      let t₃ : List Event :=
        if a.verbose then
          t₂ ++ [Event.plotConfusion (a.name ++ ".png")
            ["left", "right", "up"]]
        else t₂
      if a.move then
        t₃ ++ [Event.moveCheckpoints (parentdir ++ "/checkpoints")]
      else t₃
    else
      t₁ ++ [Event.configError]

/-- `train` (lines 25-117): if the `checkpoints` directory exists it is
removed first (lines 85-86, `os.path.exists` / `shutil.rmtree`), then the body
runs.  `checkpointsExist` is the filesystem state on entry. -/
def train (checkpointsExist : Bool) (parentdir : String) (a : TrainArgs) :
    List Event :=
  (if checkpointsExist then [Event.removeCheckpoints] else []) ++
    trainBody parentdir a

/-- The CLI arguments parsed by `main` (lines 134-215), with their argparse
defaults recorded alongside in `defaultArgsWith`. -/
structure CliArgs where
  mode : String
  height : Nat
  width : Nat
  architecture : List Nat
  activations : Option (List String)
  batch_size : Nat
  epochs : Nat
  num_steps : Nat
  save_step : Nat
  learning_rate : Rat
  optimizer : String
  verbose : Bool
  name : String
  move : Bool

/-- The channel derivation of `main`, lines 216-219:
`if args.mode == "bin" or args.mode == "gray" or args.mode == "green":
channels = 1 else: channels = 3`. -/
def channelsFor (mode : String) : Nat :=
  if mode = "bin" ∨ mode = "gray" ∨ mode = "green" then 1 else 3

/-- The suffix list `records` of `main`, line 220. -/
def recordSuffixes : List String :=
  ["_train.tfrecords", "_valid.tfrecords", "_test.tfrecords"]

/-- The loop of `main`, lines 221-224: `new_records` collects
`args.mode + record` for each suffix, preserving order. -/
def new_records (mode : String) : List String :=
  recordSuffixes.map (fun record => mode ++ record)

/-- `optimizer_dict` of `main`, lines 226-233: name-to-class lookup; a name
outside the eight keys raises `KeyError`, modelled as `none`. -/
def optimizer_dict (s : String) : Option Optimizer :=
  if s = "GradientDescent" then some Optimizer.GradientDescent
  else if s = "Adadelta" then some Optimizer.Adadelta
  else if s = "Adagrad" then some Optimizer.Adagrad
  else if s = "Adam" then some Optimizer.Adam
  else if s = "Ftrl" then some Optimizer.Ftrl
  else if s = "ProximalGradientDescent" then
    some Optimizer.ProximalGradientDescent
  else if s = "ProximalAdagrad" then some Optimizer.ProximalAdagrad
  else if s = "RMSProp" then some Optimizer.RMSProp
  else none

/-- `activations_dict` of `main`, lines 235-237. -/
def activations_dict (s : String) : Option Activation :=
  if s = "relu" then some Activation.relu
  else if s = "sigmoid" then some Activation.sigmoid
  else if s = "tanh" then some Activation.tanh
  else none

/-- The list comprehension of `main`, line 239:
`[activations_dict[act] for act in args.activations]`; the first unknown name
raises `KeyError` carrying that name. -/
def lookupActivations : List String → Except String (List Activation)
  | [] => Except.ok []
  | a :: rest =>
    match activations_dict a with
    | none => Except.error a
    | some f =>
      match lookupActivations rest with
      | Except.error k => Except.error k
      | Except.ok l => Except.ok (f :: l)

/-- Lines 238-241 of `main`: when `args.activations is None` the sentinel is
passed through, otherwise every name is resolved. -/
def resolveActivations :
    Option (List String) → Except String (Option (List Activation))
  | none => Except.ok none
  | some acts =>
    match lookupActivations acts with
    | Except.error k => Except.error k
    | Except.ok l => Except.ok (some l)

/-- Outcome of `main`: either a `KeyError` during name resolution — before
`train` is ever called and before any record is touched — or a completed call
to `train` with its trace. -/
inductive MainResult
  | lookupError (key : String)
  | ran (trace : List Event)
  deriving DecidableEq

/-- The trace of a `MainResult`; a lookup error produces no events. -/
def ranTrace : MainResult → List Event
  | MainResult.lookupError _ => []
  | MainResult.ran t => t

/-- `main` (lines 120-259): channel derivation, record naming, activation
resolution (lines 238-241, evaluated before the optimizer lookup), optimizer
resolution (line 242), then the call to `train` (lines 244-259) forwarding
every argument. -/
def main (checkpointsExist : Bool) (parentdir : String) (args : CliArgs) :
    MainResult :=
  match resolveActivations args.activations with
  | Except.error k => MainResult.lookupError k
  | Except.ok acts =>
    match optimizer_dict args.optimizer with
    | none => MainResult.lookupError args.optimizer
    | some opt =>
      MainResult.ran (train checkpointsExist parentdir
        ⟨args.mode, new_records args.mode, args.height, args.width,
          channelsFor args.mode, args.architecture, acts, args.batch_size,
          args.epochs, args.num_steps, args.save_step, args.learning_rate,
          opt, args.verbose, args.name, args.move⟩)

/-- A `train` invocation whose component construction succeeds: `Config`
accepts the fields and `DFN` accepts the activations length. -/
def wellFormed (a : TrainArgs) : Bool :=
  match mkConfigFrom a with
  | none => false
  | some cfg => dfnAccepts cfg

/-- The argparse default learning rate `0.02` (line 185), as the rational
number 1/50 given by its reduced numerator and denominator. -/
def defaultLearningRate : Rat := ⟨1, 50, by decide, by decide⟩

/-- The argparse defaults of `main` (lines 134-215) with a chosen
architecture: mode `"bin"`, height 90, width 160, activations unset,
batch_size 32, epochs 5, num_steps 1000, save_step 100, learning_rate 0.02,
optimizer `"GradientDescent"`, verbose off, name `"Confusion_Matrix"`, move
off. -/
def defaultArgsWith (architecture : List Nat) : CliArgs :=
  ⟨"bin", 90, 160, architecture, none, 32, 5, 1000, 100, defaultLearningRate,
    "GradientDescent", false, "Confusion_Matrix", false⟩

/-- The full argparse defaults, including the default architecture `[4]`
(line 155). -/
def defaultArgs : CliArgs := defaultArgsWith [4]

/-- A direct `train` invocation with `mode="pure"` and `channels=1` — a
channel/mode mismatch — and every other field valid. -/
def pureMismatchArgs : TrainArgs :=
  ⟨"pure", new_records "pure", 90, 160, 1, [4], none, 32, 5, 1000, 100,
    defaultLearningRate, Optimizer.GradientDescent, false, "Confusion_Matrix", false⟩

/-- A valid `train` invocation with `verbose` set. -/
def verboseArgs : TrainArgs :=
  ⟨"bin", new_records "bin", 90, 160, 1, [4], none, 32, 5, 1000, 100,
    defaultLearningRate, Optimizer.GradientDescent, true, "Confusion_Matrix", false⟩

/-- CLI arguments with a misspelled optimizer name. -/
def badOptimizerArgs : CliArgs :=
  ⟨"bin", 90, 160, [4], none, 32, 5, 1000, 100, defaultLearningRate, "Adamm", false,
    "Confusion_Matrix", false⟩

/-- `train` arguments that `Config` rejects (height 0). -/
def badConfigArgs : TrainArgs :=
  ⟨"bin", new_records "bin", 0, 160, 1, [4], none, 32, 5, 1000, 100,
    defaultLearningRate, Optimizer.GradientDescent, false, "Confusion_Matrix", false⟩

/-! ### Helper lemmas about the shape of a `train` trace -/

/-- A `train` invocation is well-formed exactly when `Config` construction
succeeds and `DFN` accepts the activations length. -/
theorem wellFormed_iff (a : TrainArgs) :
    wellFormed a = true ↔
      ∃ cfg, mkConfigFrom a = some cfg ∧ dfnAccepts cfg = true := by
  unfold wellFormed
  cases h : mkConfigFrom a <;> simp [h]

/-- When `Config` construction fails, the body of `train` is a bare
configuration error. -/
theorem trainBody_configError (pd : String) (a : TrainArgs)
    (h : mkConfigFrom a = none) : trainBody pd a = [Event.configError] := by
  simp [trainBody, h]

/-- When `DFN` construction fails, the body of `train` records the two
components already built and then the configuration error. -/
theorem trainBody_dfnError (pd : String) (a : TrainArgs) (cfg : Config)
    (hc : mkConfigFrom a = some cfg) (hd : dfnAccepts cfg = false) :
    trainBody pd a =
      [Event.configConstructed, Event.dataHolderConstructed a.records,
        Event.configError] := by
  simp [trainBody, hc, hd]

/-- The body of a well-formed `train` invocation: the four components, the
two prints, the fit, then the optional plot and the optional relocation. -/
theorem trainBody_success (pd : String) (a : TrainArgs)
    (h : wellFormed a = true) :
    trainBody pd a =
      [Event.configConstructed, Event.dataHolderConstructed a.records,
        Event.networkConstructed, Event.trainerConstructed,
        Event.printMode a.mode, Event.printStatus, Event.fit a.verbose] ++
      (if a.verbose then
        [Event.plotConfusion (a.name ++ ".png") ["left", "right", "up"]]
      else []) ++
      (if a.move then
        [Event.moveCheckpoints (pd ++ "/checkpoints")]
      else []) := by
  obtain ⟨cfg, hc, hd⟩ := (wellFormed_iff a).1 h
  simp only [trainBody, hc, hd, if_true]
  cases hv : a.verbose <;> cases hm : a.move <;> simp [hv, hm]

/-- Every `train` body has one of three shapes: abort at `Config`, abort at
`DFN`, or the full run; the first two are exactly the ill-formed
invocations. -/
theorem trainBody_shapes (pd : String) (a : TrainArgs) :
    (wellFormed a = false ∧ trainBody pd a = [Event.configError]) ∨
    (wellFormed a = false ∧ trainBody pd a =
      [Event.configConstructed, Event.dataHolderConstructed a.records,
        Event.configError]) ∨
    (wellFormed a = true ∧ trainBody pd a =
      [Event.configConstructed, Event.dataHolderConstructed a.records,
        Event.networkConstructed, Event.trainerConstructed,
        Event.printMode a.mode, Event.printStatus, Event.fit a.verbose] ++
      (if a.verbose then
        [Event.plotConfusion (a.name ++ ".png") ["left", "right", "up"]]
      else []) ++
      (if a.move then
        [Event.moveCheckpoints (pd ++ "/checkpoints")]
      else [])) := by
  cases hc : mkConfigFrom a with
  | none =>
    refine Or.inl ⟨?_, trainBody_configError pd a hc⟩
    unfold wellFormed
    rw [hc]
  | some cfg =>
    cases hd : dfnAccepts cfg with
    | false =>
      refine Or.inr (Or.inl ⟨?_, trainBody_dfnError pd a cfg hc hd⟩)
      unfold wellFormed
      rw [hc]
      exact hd
    | true =>
      have hw : wellFormed a = true := (wellFormed_iff a).2 ⟨cfg, hc, hd⟩
      exact Or.inr (Or.inr ⟨hw, trainBody_success pd a hw⟩)

/-! ### Claims -/

/-- Claim C2: for every preprocessing mode accepted by the CLI, the resolved
channel count is 1 when the mode is one of `bin`, `gray`, `green`, and 3 for
every other mode string (lines 216-219 of `train.py`). -/
theorem C2_channel_resolution (m : String) :
    ((m = "bin" ∨ m = "gray" ∨ m = "green") → channelsFor m = 1) ∧
    (¬(m = "bin" ∨ m = "gray" ∨ m = "green") → channelsFor m = 3) := by
  unfold channelsFor
  constructor
  · intro h
    rw [if_pos h]
  · intro h
    rw [if_neg h]

/-- Witness for C2 at the single-channel mode `"bin"` and the three-channel
mode `"pure"`. -/
theorem C2_channel_resolution_witness :
    channelsFor "bin" = 1 ∧ channelsFor "pure" = 3 :=
  ⟨(C2_channel_resolution "bin").1 (Or.inl rfl),
    (C2_channel_resolution "pure").2 (by decide)⟩

/-- Claim C6: for every mode string `m`, the run binds exactly the three
record files `m ++ "_train.tfrecords"`, `m ++ "_valid.tfrecords"`,
`m ++ "_test.tfrecords"`, in that order (lines 220-224 of `train.py`). -/
theorem C6_record_names (m : String) :
    new_records m =
      [m ++ "_train.tfrecords", m ++ "_valid.tfrecords",
        m ++ "_test.tfrecords"] := rfl

/-- Claim C3: when a prior `checkpoints/` directory exists, `train` removes
it as its very first action — before `Config`, `DataHolder`, `DFN` and
`Trainer` are constructed and before `fit` runs — and the rest of the run is
exactly the run on a clean filesystem; the body itself never performs the
removal. -/
theorem C3_checkpoints_cleared_before_components (pd : String)
    (a : TrainArgs) :
    train true pd a = Event.removeCheckpoints :: trainBody pd a ∧
    train false pd a = trainBody pd a ∧
    Event.removeCheckpoints ∉ trainBody pd a := by
  refine ⟨by simp [train], by simp [train], ?_⟩
  rcases trainBody_shapes pd a with ⟨_, hs⟩ | ⟨_, hs⟩ | ⟨_, hs⟩ <;> rw [hs]
  · simp
  · simp
  · cases hv : a.verbose <;> cases hm : a.move <;> simp [hv, hm]

/-- Claim C10: the checkpoint cleanup of lines 85-86 precedes `Config`
construction and all validation, so a run that fails immediately at
configuration time has already destroyed the previous run's checkpoints: with
a pre-existing directory the cleanup is always in the trace, and a run
rejected by `Config` produces exactly the cleanup followed by the error. -/
theorem C10_cleanup_precedes_validation (pd : String) (a : TrainArgs) :
    Event.removeCheckpoints ∈ train true pd a ∧
    (mkConfigFrom a = none →
      train true pd a = [Event.removeCheckpoints, Event.configError]) := by
  constructor
  · simp [train]
  · intro h
    simp [train, trainBody_configError pd a h]

/-- Witness for C10: `height = 0` makes `Config` construction fail, yet the
stale checkpoint directory is already gone. -/
theorem C10_cleanup_precedes_validation_witness :
    mkConfigFrom badConfigArgs = none ∧
    train true "parent" badConfigArgs =
      [Event.removeCheckpoints, Event.configError] :=
  ⟨by decide,
    (C10_cleanup_precedes_validation "parent" badConfigArgs).2 (by decide)⟩

/-- `Config` construction succeeds on positive scalar fields, a positive
learning rate and a nonempty architecture. -/
theorem mkConfig_pos (h w c : Nat) (arch : List Nat)
    (acts : Option (List Activation)) (bs e ns ss : Nat) (lr : Rat)
    (opt : Optimizer) (hh : 0 < h) (hwi : 0 < w) (hc : 0 < c)
    (ha : arch ≠ []) (hbs : 0 < bs) (he : 0 < e) (hns : 0 < ns)
    (hss : 0 < ss) (hlr : 0 < lr) :
    mkConfig h w c arch acts bs e ns ss lr opt =
      some ⟨h, w, c, arch, acts, bs, e, ns, ss, lr, opt⟩ := by
  unfold mkConfig
  exact if_pos ⟨hh, hwi, hc, ha, hbs, he, hns, hss, hlr⟩

/-- Claim C1, counterexample: running `main` with the argparse defaults —
architecture `[4]`, whose final entry differs from the 3 label classes — is
silently accepted: the run reaches `trainer.fit` and no configuration error
is raised, refuting the claimed rejection. -/
theorem C1_counterexample :
    defaultArgs.architecture = [4] ∧
    Event.fit false ∈ ranTrace (TrainPy.main true "parent" defaultArgs) ∧
    Event.configError ∉ ranTrace (TrainPy.main true "parent" defaultArgs) :=
  ⟨rfl, by decide, by decide⟩

/-- Claim C1, amended: no component validates the final architecture entry
against the 3-class label space; `main` accepts every nonempty architecture —
in particular the CLI default `[4]` — and proceeds to training without a
configuration error. -/
theorem C1_no_final_width_validation (ce : Bool) (pd : String)
    (arch : List Nat) (h : arch ≠ []) :
    Event.fit false ∈ ranTrace (TrainPy.main ce pd (defaultArgsWith arch)) ∧
    Event.configError ∉ ranTrace (TrainPy.main ce pd (defaultArgsWith arch)) := by
  have hmain : TrainPy.main ce pd (defaultArgsWith arch) =
      MainResult.ran (train ce pd
        ⟨"bin", new_records "bin", 90, 160, channelsFor "bin", arch, none,
          32, 5, 1000, 100, defaultLearningRate, Optimizer.GradientDescent,
          false, "Confusion_Matrix", false⟩) := rfl
  have hcfg : mkConfigFrom
      ⟨"bin", new_records "bin", 90, 160, channelsFor "bin", arch, none,
        32, 5, 1000, 100, defaultLearningRate, Optimizer.GradientDescent,
        false, "Confusion_Matrix", false⟩ =
      some ⟨90, 160, channelsFor "bin", arch, none, 32, 5, 1000, 100,
        defaultLearningRate, Optimizer.GradientDescent⟩ :=
    mkConfig_pos 90 160 (channelsFor "bin") arch none 32 5 1000 100
      defaultLearningRate Optimizer.GradientDescent (by decide) (by decide)
      (by decide) h (by decide) (by decide) (by decide) (by decide)
      (by decide)
  have hw : wellFormed
      ⟨"bin", new_records "bin", 90, 160, channelsFor "bin", arch, none,
        32, 5, 1000, 100, defaultLearningRate, Optimizer.GradientDescent,
        false, "Confusion_Matrix", false⟩ = true := by
    unfold wellFormed
    rw [hcfg]
    rfl
  have hb := trainBody_success pd _ hw
  rw [hmain]
  unfold ranTrace
  constructor
  · cases ce <;> simp [train, hb]
  · cases ce <;> simp [train, hb]

/-- Witness for the amended C1 at the default architecture `[4]`. -/
theorem C1_no_final_width_validation_witness :
    ([4] : List Nat) ≠ [] ∧
    Event.fit false ∈ ranTrace (TrainPy.main true "parent" (defaultArgsWith [4])) :=
  ⟨by decide,
    (C1_no_final_width_validation true "parent" [4] (by decide)).1⟩

/-- Every name resolved by the comprehension of line 239 is a key of
`activations_dict`; an unknown name in the list makes the whole lookup raise
a `KeyError`. -/
theorem lookupActivations_err (l : List String) (s : String) (hs : s ∈ l)
    (hbad : activations_dict s = none) :
    ∃ k, lookupActivations l = Except.error k := by
  induction l with
  | nil => cases hs
  | cons a rest ih =>
    cases hs with
    | head =>
      exact ⟨s, by simp [lookupActivations, hbad]⟩
    | tail _ hmem =>
      cases ha : activations_dict a with
      | none => exact ⟨a, by simp [lookupActivations, ha]⟩
      | some f =>
        obtain ⟨k, hk⟩ := ih hmem
        exact ⟨k, by simp [lookupActivations, ha, hk]⟩

/-- Claim C4: a CLI invocation naming an optimizer outside `optimizer_dict`
or an activation outside `activations_dict` stops with a lookup error
(`KeyError`) during name resolution in `main` — `train` is never called, no
component is built and no event occurs (lines 226-242 precede the call at
line 244). -/
theorem C4_unknown_name_fails_before_train (ce : Bool) (pd : String)
    (args : CliArgs)
    (h : optimizer_dict args.optimizer = none ∨
      ∃ s ∈ args.activations.getD [], activations_dict s = none) :
    ∃ k, TrainPy.main ce pd args = MainResult.lookupError k := by
  cases hact : args.activations with
  | none =>
    rcases h with h | ⟨s, hs, _⟩
    · exact ⟨args.optimizer, by simp [main, hact, resolveActivations, h]⟩
    · rw [hact] at hs
      cases hs
  | some acts =>
    rcases h with h | ⟨s, hs, hbad⟩
    · cases hl : lookupActivations acts with
      | error k =>
        exact ⟨k, by simp [main, hact, resolveActivations, hl]⟩
      | ok l =>
        exact ⟨args.optimizer,
          by simp [main, hact, resolveActivations, hl, h]⟩
    · rw [hact] at hs
      simp only [Option.getD_some] at hs
      obtain ⟨k, hk⟩ := lookupActivations_err acts s hs hbad
      exact ⟨k, by simp [main, hact, resolveActivations, hk]⟩

/-- Witness for C4: the misspelled optimizer name `"Adamm"`. -/
theorem C4_unknown_name_fails_before_train_witness :
    optimizer_dict badOptimizerArgs.optimizer = none ∧
    ∃ k, TrainPy.main true "parent" badOptimizerArgs =
      MainResult.lookupError k :=
  ⟨by decide,
    C4_unknown_name_fails_before_train true "parent" badOptimizerArgs
      (Or.inl (by decide))⟩

/-- Claim C5, counterexample: calling `train` with `mode = "pure"` and
`channels = 1` — the claimed channel/mode mismatch — is not rejected: the run
reaches `trainer.fit` and raises no configuration error. -/
theorem C5_counterexample :
    pureMismatchArgs.mode = "pure" ∧ pureMismatchArgs.channels = 1 ∧
    Event.fit false ∈ train true "parent" pureMismatchArgs ∧
    Event.configError ∉ train true "parent" pureMismatchArgs :=
  ⟨rfl, rfl, by decide, by decide⟩

/-- Claim C5, amended: no channel/mode consistency check exists: every
well-formed `train` invocation with `mode = "pure"` and `channels = 1`
proceeds to training without a configuration error; the mismatch merely
cannot arise through the CLI, whose channel derivation gives `"pure"` three
channels. -/
theorem C5_no_channel_mode_check :
    channelsFor "pure" = 3 ∧
    ∀ (ce : Bool) (pd : String) (a : TrainArgs),
      a.mode = "pure" → a.channels = 1 → wellFormed a = true →
      Event.fit a.verbose ∈ train ce pd a ∧
      Event.configError ∉ train ce pd a := by
  refine ⟨by decide, ?_⟩
  intro ce pd a _ _ hw
  have hb := trainBody_success pd a hw
  constructor
  · cases ce <;> simp [train, hb]
  · cases ce <;> cases hv : a.verbose <;> cases hm : a.move <;>
      simp [train, hb, hv, hm]

/-- Witness for the amended C5 at the concrete mismatched invocation. -/
theorem C5_no_channel_mode_check_witness :
    pureMismatchArgs.mode = "pure" ∧ pureMismatchArgs.channels = 1 ∧
    wellFormed pureMismatchArgs = true ∧
    Event.fit pureMismatchArgs.verbose ∈
      train true "parent" pureMismatchArgs :=
  ⟨rfl, rfl, by decide,
    (C5_no_channel_mode_check.2 true "parent" pureMismatchArgs rfl rfl
      (by decide)).1⟩

/-- Claim C7: a confusion-matrix plot is written to `name ++ ".png"` with the
fixed class labels `["left", "right", "up"]` exactly when `verbose` is set:
no run with `verbose` unset ever plots, and a well-formed run plots iff
`verbose` (lines 109-114 of `train.py`). -/
theorem C7_confusion_plot_iff_verbose (ce : Bool) (pd : String)
    (a : TrainArgs) :
    (a.verbose = false → ∀ f c, Event.plotConfusion f c ∉ train ce pd a) ∧
    (wellFormed a = true →
      (Event.plotConfusion (a.name ++ ".png") ["left", "right", "up"]
        ∈ train ce pd a ↔ a.verbose = true)) := by
  constructor
  · intro hv f c
    rcases trainBody_shapes pd a with ⟨_, hs⟩ | ⟨_, hs⟩ | ⟨_, hs⟩ <;>
      cases ce <;> cases hm : a.move <;> simp [train, hs, hv, hm]
  · intro hw
    have hb := trainBody_success pd a hw
    cases ce <;> cases hv : a.verbose <;> cases hm : a.move <;>
      simp [train, hb, hv, hm]

/-- Witness for C7: a verbose well-formed run plots
`Confusion_Matrix.png`. -/
theorem C7_confusion_plot_iff_verbose_witness :
    wellFormed verboseArgs = true ∧
    Event.plotConfusion ("Confusion_Matrix" ++ ".png")
      ["left", "right", "up"] ∈ train true "parent" verboseArgs :=
  ⟨by decide,
    ((C7_confusion_plot_iff_verbose true "parent" verboseArgs).2
      (by decide)).mpr rfl⟩

/-- Claim C8: whenever a run reaches `trainer.fit`, the configuration status
dump (line 107) has been printed immediately before it: every trace containing
the fit splits around `printStatus` directly followed by the fit. -/
theorem C8_status_printed_before_fit (ce : Bool) (pd : String)
    (a : TrainArgs) (h : Event.fit a.verbose ∈ train ce pd a) :
    ∃ l₁ l₂, train ce pd a =
      l₁ ++ Event.printStatus :: Event.fit a.verbose :: l₂ := by
  rcases trainBody_shapes pd a with ⟨_, hs⟩ | ⟨_, hs⟩ | ⟨_, hs⟩
  · exfalso
    cases ce <;> simp [train, hs] at h
  · exfalso
    cases ce <;> simp [train, hs] at h
  · refine ⟨(if ce then [Event.removeCheckpoints] else []) ++
      [Event.configConstructed, Event.dataHolderConstructed a.records,
        Event.networkConstructed, Event.trainerConstructed,
        Event.printMode a.mode],
      (if a.verbose then
        [Event.plotConfusion (a.name ++ ".png") ["left", "right", "up"]]
      else []) ++
      (if a.move then
        [Event.moveCheckpoints (pd ++ "/checkpoints")]
      else []), ?_⟩
    cases ce <;> simp [train, hs]

/-- Witness for C8 at a concrete well-formed run. -/
theorem C8_status_printed_before_fit_witness :
    ∃ l₁ l₂, train true "parent" verboseArgs =
      l₁ ++ Event.printStatus :: Event.fit verboseArgs.verbose :: l₂ :=
  C8_status_printed_before_fit true "parent" verboseArgs (by decide)

/-- Claim C9: the relocation step touches exactly one destination: a
`moveCheckpoints` event occurs in a `train` trace iff the `move` flag is set,
the run completed, and the destination is `parentdir ++ "/checkpoints"` —
with `move` unset no relocation of any destination happens. -/
theorem C9_move_iff_flag (ce : Bool) (pd : String) (a : TrainArgs)
    (d : String) :
    Event.moveCheckpoints d ∈ train ce pd a ↔
      (a.move = true ∧ wellFormed a = true ∧ d = pd ++ "/checkpoints") := by
  rcases trainBody_shapes pd a with ⟨hw, hs⟩ | ⟨hw, hs⟩ | ⟨hw, hs⟩
  · cases ce <;> simp [train, hs, hw]
  · cases ce <;> simp [train, hs, hw]
  · cases ce <;> cases hv : a.verbose <;> cases hm : a.move <;>
      simp [train, hs, hw, hv, hm]

end TrainPy
